import Mathlib

/-!
Verification of the fiscal-invoice core of the `bun-hono-backend-boilerplate`
repository against its natural-language specification.

The development shallowly embeds the TypeScript sources:

* `src/services/currency-conversion.service.ts` — the Currency Resolver
  (`CurrencyConversionService`): `convertToBRL`, `getPTAXRate`,
  `getFallbackRate`, `buildAuditDescription`.
* `src/routes/fiscal/index.ts` — the tax-information validation and the
  signed webhook handler (`app.post "/webhook"`).
* `src/services/nfse.service.ts` — the Invoice Issuer (`NFSeService`):
  `createNFSeForSubscription`, `createNFSeForCreditPurchase`,
  `_buildTomadorFromTaxInfo`, `_buildServiceDescription`.
* `src/fiscal-nacional` client (`FiscalNacionalClient.createNFSe`), whose
  non-2xx responses reject the promise.

Modelling conventions:

* JavaScript numbers are embedded as exact rationals `ℚ`; where the source
  performs an arithmetic operation whose rounding matters (the single
  multiplication `amount * rate`), the binary64 round-to-nearest-even step
  is made explicit through `fpRound` / `fpMul` (normal range only; the
  magnitudes handled by this program are nowhere near subnormal or
  overflow territory).
* Nullable / optional JavaScript values are `Option`; JavaScript truthiness
  of strings (`undefined` and `""` are falsy) is `optTruthy` / `strTruthy`.
* Network collaborators (Stripe settlement lookup, the PTAX daily-rate
  service, the Fiscal Nacional tax API, HMAC, JSON decoding) are oracle
  parameters supplied in environment records: a call's outcome is whatever
  the oracle returns, and both "not found" and caught transport errors are
  `none`/`Except.error` exactly where the source maps them to `null` or a
  rejected promise.
* The database is an explicit list of rows; drizzle's
  `update().set().where(eq ...)` is a map over the rows applying an update
  map whose absent keys leave columns unchanged, and `insert()` appends.
* Promise rejection (a JavaScript `throw`) is `Except.error`.
-/

/-- JavaScript truthiness of an optional string: `undefined` and `""` are
falsy.  `optTruthy o` is `some s` exactly when `o` holds a nonempty string. -/
def optTruthy (o : Option String) : Option String :=
  match o with
  | some s => if s = "" then none else some s
  | none => none

/-- Boolean form of string-option truthiness (`if (x)` on `string |
undefined`). -/
def strTruthy (o : Option String) : Bool :=
  (optTruthy o).isSome

/-- First-truthy-of-two, the JavaScript `a || b || null` on nullable
strings (used for `taxInfo.cpfCnpj || taxInfo.nif || null`). -/
def orTruthy (a b : Option String) : Option String :=
  match optTruthy a with
  | some s => some s
  | none => optTruthy b

/-- Keep only the decimal digits of a string — the source's
`.replace(/\D/g, "")`. -/
def digitsOnly (s : String) : String :=
  String.mk (s.data.filter Char.isDigit)

/-- Left-pad a digit string with zeros to the given length. -/
def padZeros (s : String) (len : Nat) : String :=
  String.mk (List.replicate (len - s.length) '0') ++ s

/-- Render of `n / 10^d` with exactly `d` digits after the decimal point
(`n` a nonnegative integer of scaled units). -/
def scaledRepr (n : Nat) (d : Nat) : String :=
  if d = 0 then Nat.repr n
  else Nat.repr (n / 10 ^ d) ++ "." ++ padZeros (Nat.repr (n % 10 ^ d)) d

/-- JavaScript `Number.prototype.toFixed(d)`: round `|q| * 10^d` to the
nearest integer, ties away from zero (the ECMAScript "larger n" rule on the
magnitude), then print with `d` decimals and the sign. -/
def toFixed (q : ℚ) (d : Nat) : String :=
  let a : ℚ := |q| * 10 ^ d
  let n : Nat := (⌊a + 1 / 2⌋).toNat
  (if q < 0 then "-" else "") ++ scaledRepr n d

/-- Power of two as a rational, for an integer exponent. -/
def pow2z (e : ℤ) : ℚ :=
  if 0 ≤ e then ((2 ^ e.toNat : ℕ) : ℚ) else 1 / ((2 ^ (-e).toNat : ℕ) : ℚ)

/-- Floor of the base-2 logarithm of a rational `b ≥ 1`. -/
def flogGe1 (b : ℚ) : ℕ :=
  Nat.log 2 b.floor.toNat

/-- Floor of the base-2 logarithm of a positive rational (for `a < 1`,
computed as the negated ceiling logarithm of `1 / a`). -/
def floorLog2 (a : ℚ) : ℤ :=
  if 1 ≤ a then (flogGe1 a : ℤ)
  else
    let b := 1 / a
    let f := flogGe1 b
    if ((2 ^ f : ℕ) : ℚ) = b then -(f : ℤ) else -(f : ℤ) - 1

/-- Round a rational to the nearest integer, ties to even (IEEE 754
default rounding of a value already scaled into integer units). -/
def rnEven (x : ℚ) : ℤ :=
  let f := ⌊x⌋
  let r := x - f
  if r < 1 / 2 then f
  else if 1 / 2 < r then f + 1
  else if f % 2 = 0 then f else f + 1

/-- Round a rational to the nearest IEEE 754 binary64 value (normal range:
53-bit significand, no subnormal or overflow handling — adequate for the
monetary magnitudes of this program).  Zero maps to zero. -/
def fpRound (q : ℚ) : ℚ :=
  if q = 0 then 0
  else
    let a := |q|
    let e := floorLog2 a - 52
    let m := rnEven (a * pow2z (-e))
    (if q < 0 then -1 else 1) * (m : ℚ) * pow2z e

/-- IEEE 754 binary64 multiplication of two (representable) rationals:
exact product, then one rounding — the semantics of the JavaScript `*` in
`amount * rate`. -/
def fpMul (x y : ℚ) : ℚ :=
  fpRound (x * y)

/-! ## Currency Resolver — `currency-conversion.service.ts` -/

/-- Entry of the `CURRENCIES` mapping table: ISO code, BACEN code, display
name and symbol. -/
structure CurrencyEntry where
  code : String
  bacenCode : String
  name : String
  symbol : String
deriving Repr, DecidableEq

/-- The `CURRENCIES` constant of `currency-conversion.service.ts`. -/
def CURRENCIES : List CurrencyEntry :=
  [⟨"USD", "220", "US Dollar", "$"⟩,
   ⟨"EUR", "978", "Euro", "€"⟩,
   ⟨"GBP", "540", "British Pound", "£"⟩,
   ⟨"CAD", "165", "Canadian Dollar", "C$"⟩,
   ⟨"AUD", "150", "Australian Dollar", "A$"⟩,
   ⟨"JPY", "470", "Japanese Yen", "¥"⟩,
   ⟨"CHF", "510", "Swiss Franc", "CHF"⟩,
   ⟨"BRL", "986", "Brazilian Real", "R$"⟩]

/-- The `FALLBACK_RATES` constant: fixed conservative BRL rates per
currency. -/
def FALLBACK_RATES : List (String × ℚ) :=
  [("USD", 55 / 10), ("EUR", 6), ("GBP", 7), ("CAD", 4),
   ("AUD", 35 / 10), ("JPY", 37 / 1000), ("CHF", 62 / 10)]

/-- Conversion source tag, the `source` union of
`CurrencyConversionResult` (`"stripe_balance" | "ptax" | "fallback"`). -/
inductive ConvSource where
  | stripe_balance
  | ptax
  | fallback
deriving Repr, DecidableEq

/-- Result record of `convertToBRL` (`CurrencyConversionResult`). -/
structure CurrencyConversionResult where
  amountBrl : ℚ
  originalAmount : ℚ
  originalCurrency : String
  exchangeRate : ℚ
  source : ConvSource
  rateDate : String
  auditDescription : String
  stripeFeesBrl : Option ℚ := none
  netAmountBrl : Option ℚ := none
deriving Repr, DecidableEq

/-- Stripe settlement record (`StripeBalanceInfo`). -/
structure StripeBalanceInfo where
  grossAmountBrl : ℚ
  feesBrl : ℚ
  netAmountBrl : ℚ
  exchangeRate : ℚ
  originalAmount : ℚ
  originalCurrency : String
deriving Repr, DecidableEq

/-- PTAX daily quote (the successful return of `getPTAXRate`). -/
structure PTAXQuote where
  buyRate : ℚ
  sellRate : ℚ
  date : String
deriving Repr, DecidableEq

/-- Environment of the Currency Resolver: outcomes of the network
collaborators.  `stripeByCharge` / `stripeByPaymentIntent` are the results
of `getStripeBalanceInfo` / `getStripeBalanceInfoFromPaymentIntent`
(`none` covers both "no balance transaction" and a caught transport
error); `ptax` is the outcome of `this.getPTAXRate(currencyUpper)`
(`none` covers a non-OK response, a caught error, or exhaustion of the
previous-day retries); `nowIso` and `today` are the strings produced by
`new Date().toISOString()` and its date part. -/
structure ConvEnv where
  stripeByCharge : String → Option StripeBalanceInfo
  stripeByPaymentIntent : String → Option StripeBalanceInfo
  ptax : String → Option PTAXQuote
  nowIso : String
  today : String

/-- Parameters of `convertToBRL`. -/
structure ConvertParams where
  amount : ℚ
  currency : String
  chargeId : Option String := none
  paymentIntentId : Option String := none

/-- Count of lookups performed against each of the three sources during a
`convertToBRL` call (instrumentation for the short-circuit claims). -/
structure CallTrace where
  stripeLookups : Nat
  ptaxLookups : Nat
  fallbackLookups : Nat
deriving Repr, DecidableEq

/-- Property access `TABLE[key]` on a JavaScript record literal, embedded
as association-list lookup. -/
def tableLookup (t : List (String × ℚ)) (k : String) : Option ℚ :=
  match t with
  | [] => none
  | (k', v) :: rest => if k = k' then some v else tableLookup rest k

/-- The `getFallbackRate` method: table lookup with the JavaScript
`|| 5.5` default (a falsy — zero — table value would also fall back). -/
def getFallbackRate (currency : String) : ℚ :=
  match tableLookup FALLBACK_RATES currency.toUpper with
  | some r => if r = 0 then 55 / 10 else r
  | none => 55 / 10

/-- The `sourceLabels` mapping inside `buildAuditDescription`. -/
def sourceLabel (source : ConvSource) : String :=
  match source with
  | .stripe_balance => "Taxa de Conversão Stripe"
  | .ptax => "Taxa PTAX (Banco Central)"
  | .fallback => "Taxa de Conversão Estimada"

/-- Currency symbol used by `buildAuditDescription`: the `CURRENCIES`
entry's symbol, else the code itself. -/
def symbolFor (currency : String) : String :=
  match (CURRENCIES.find? fun c => c.code = currency) with
  | some c => c.symbol
  | none => currency

/-- The `buildAuditDescription` method: the audit string as the source
builds it, with the optional fees suffix added only for present, positive
fees (`if (fees && fees > 0)`). -/
def buildAuditDescription (originalAmount : ℚ) (currency : String) (rate : ℚ)
    (source : ConvSource) (fees : Option ℚ) : String :=
  let base := "Valor original: " ++ symbolFor currency ++ toFixed originalAmount 2
    ++ " - " ++ sourceLabel source ++ ": R$ " ++ toFixed rate 4
  match fees with
  | some f => if 0 < f then base ++ " - Taxas operacionais: R$ " ++ toFixed f 2 else base
  | none => base

/-- Modelled from the spec: the audit-string template of §4.1, "`Valor
original: <symbol><amount> - <source label>: R$ <rate to 4 decimals>[ -
Taxas operacionais: R$ <fees>]`", the fees segment present exactly when
fees are present and positive.  Written from the spec's words for
comparison with `buildAuditDescription`. -/
def auditTemplate (amount : ℚ) (currency : String) (rate : ℚ)
    (source : ConvSource) (fees : Option ℚ) : String :=
  "Valor original: " ++ symbolFor currency ++ toFixed amount 2
    ++ " - " ++ sourceLabel source ++ ": R$ " ++ toFixed rate 4
    ++ (match fees with
        | some f => if 0 < f then " - Taxas operacionais: R$ " ++ toFixed f 2 else ""
        | none => "")

/-- The `convertToBRL` method, instrumented with a `CallTrace` counting
how many times each of the three sources is consulted.  Mirrors the
source: BRL short-circuit, then Stripe by charge, Stripe by payment
intent, PTAX, and finally the fallback table.  Total — every path of the
source returns (all collaborator failures are `none` oracles). -/
def convertToBRL (env : ConvEnv) (p : ConvertParams) :
    CurrencyConversionResult × CallTrace :=
  let currencyUpper := p.currency.toUpper
  if currencyUpper = "BRL" then
    ({ amountBrl := p.amount
       originalAmount := p.amount
       originalCurrency := "BRL"
       exchangeRate := 1
       source := .stripe_balance
       rateDate := env.nowIso
       auditDescription := "Pagamento em BRL - sem conversão necessária" },
     ⟨0, 0, 0⟩)
  else
    let today := env.today
    let chargeStep : Option (StripeBalanceInfo × Nat) :=
      match optTruthy p.chargeId with
      | some cid =>
        match env.stripeByCharge cid with
        | some info => some (info, 1)
        | none => none
      | none => none
    match chargeStep with
    | some (info, _) =>
      ({ amountBrl := info.grossAmountBrl
         originalAmount := p.amount
         originalCurrency := currencyUpper
         exchangeRate := info.exchangeRate
         source := .stripe_balance
         stripeFeesBrl := some info.feesBrl
         netAmountBrl := some info.netAmountBrl
         rateDate := today
         auditDescription := buildAuditDescription p.amount currencyUpper
           info.exchangeRate .stripe_balance (some info.feesBrl) },
       ⟨1, 0, 0⟩)
    | none =>
      let chargeLookups := if strTruthy p.chargeId then 1 else 0
      let piStep : Option StripeBalanceInfo :=
        match optTruthy p.paymentIntentId with
        | some pid => env.stripeByPaymentIntent pid
        | none => none
      match piStep with
      | some info =>
        ({ amountBrl := info.grossAmountBrl
           originalAmount := p.amount
           originalCurrency := currencyUpper
           exchangeRate := info.exchangeRate
           source := .stripe_balance
           stripeFeesBrl := some info.feesBrl
           netAmountBrl := some info.netAmountBrl
           rateDate := today
           auditDescription := buildAuditDescription p.amount currencyUpper
             info.exchangeRate .stripe_balance (some info.feesBrl) },
         ⟨chargeLookups + 1, 0, 0⟩)
      | none =>
        let piLookups := if strTruthy p.paymentIntentId then 1 else 0
        match env.ptax currencyUpper with
        | some q =>
          ({ amountBrl := fpMul p.amount q.sellRate
             originalAmount := p.amount
             originalCurrency := currencyUpper
             exchangeRate := q.sellRate
             source := .ptax
             rateDate := q.date
             auditDescription := buildAuditDescription p.amount currencyUpper
               q.sellRate .ptax none },
           ⟨chargeLookups + piLookups, 1, 0⟩)
        | none =>
          let fallbackRate := getFallbackRate currencyUpper
          ({ amountBrl := fpMul p.amount fallbackRate
             originalAmount := p.amount
             originalCurrency := currencyUpper
             exchangeRate := fallbackRate
             source := .fallback
             rateDate := today
             auditDescription := buildAuditDescription p.amount currencyUpper
               fallbackRate .fallback none },
           ⟨chargeLookups + piLookups, 1, 1⟩)

/-! ## The PTAX previous-day recursion — `getPTAXRate` -/

/-- Outcome of one day's PTAX HTTP request, as the source distinguishes
them: `quote` — response OK with a nonempty `value` array (the last entry
is returned); `empty` — response OK but the `value` array is absent or
empty (the path that retries the previous day); `err` — a non-OK response
or a caught exception (returns `null` immediately). -/
inductive PTAXDayOutcome where
  | quote (q : PTAXQuote)
  | empty
  | err
deriving Repr, DecidableEq

/-- The `getPTAXRate` recursion over calendar days, dates embedded as day
numbers (`ℤ`), with explicit fuel because the source recursion need not
terminate.  `none` means the fuel ran out (the source call is still
running); `some r` is the source's returned value (`r = none` is the
source's `null`).  The guard mirrors the source exactly: `previousDay` is
`targetDate` minus one day, and the recursion continues when
`targetDate - previousDay ≤ 7` days. -/
def getPTAXRate (oracle : ℤ → PTAXDayOutcome) : Nat → ℤ → Option (Option PTAXQuote)
  | 0, _ => none
  | fuel + 1, d =>
    match oracle d with
    | .err => some none
    | .quote q => some (some q)
    | .empty =>
      let previousDay := d - 1
      if d - previousDay ≤ 7 then getPTAXRate oracle fuel previousDay
      else some none

/-! ## Claim-independent sample environments and helper lemmas -/

/-- Sample resolver environment in which every collaborator is
unavailable: both Stripe lookups and the PTAX lookup return `null`. -/
def sampleConvEnv : ConvEnv :=
  { stripeByCharge := fun _ => none
    stripeByPaymentIntent := fun _ => none
    ptax := fun _ => none
    nowIso := "2026-10-11T00:00:00.000Z"
    today := "2026-10-11" }

/-- The IEEE binary64 value denoted by the decimal literal `5.4` (the
official sell rate of the C8 scenario as the JSON parser materialises
it). -/
def double54 : ℚ :=
  fpRound (27 / 5)

/-- Resolver environment for the official-rate scenario: Stripe
unavailable, and the PTAX service quotes a sell rate of `5.4` (as a
binary64 value) for USD. -/
def ptax54Env : ConvEnv :=
  { sampleConvEnv with
    ptax := fun c => if c = "USD" then some ⟨double54, double54, "2026-10-10"⟩ else none }

/-- PTAX oracle for which every day's response is OK but carries no
quote (a run of quote-less days of unbounded length). -/
def ptaxAllEmpty : ℤ → PTAXDayOutcome :=
  fun _ => .empty

/-- PTAX oracle with a published quote only nine calendar days before
day `0`, and quote-less (but OK) responses everywhere else. -/
def ptaxQuoteNineBack : ℤ → PTAXDayOutcome :=
  fun d => if d = -9 then .quote ⟨1, 2, "2026-10-02"⟩ else .empty

/-- Against the all-empty oracle, `getPTAXRate` consumes every unit of
fuel without ever returning: the previous-day guard
`targetDate - previousDay ≤ 7` compares two dates one day apart and is
therefore always true. -/
lemma getPTAXRate_allEmpty_no_result (fuel : Nat) :
    ∀ d : ℤ, getPTAXRate ptaxAllEmpty fuel d = none := by
  induction fuel with
  | zero => intro d; rfl
  | succ n ih =>
    intro d
    have hg : d - (d - 1) ≤ (7 : ℤ) := by omega
    simp only [getPTAXRate, ptaxAllEmpty, if_pos hg]
    exact ih (d - 1)

/-- The audit string of the source agrees with the spec's template
(`buildAuditDescription` appends the fees segment exactly when the
template does). -/
lemma buildAuditDescription_eq_template (a : ℚ) (c : String) (r : ℚ)
    (src : ConvSource) (fees : Option ℚ) :
    buildAuditDescription a c r src fees = auditTemplate a c r src fees := by
  unfold buildAuditDescription auditTemplate
  cases fees with
  | none => simp
  | some f => by_cases hf : 0 < f <;> simp [hf, String.append_assoc]

/-! ## C1 — the official-rate retry bound -/

/-- C1 (code bug evidence): the claim says the previous-day retry of
`getPTAXRate` is bounded to 7 days back and returns `null` beyond that.
In the source the guard is `targetDate - previousDay ≤ 7` days with
`previousDay = targetDate - 1`, so it is always `1 ≤ 7`: with a quote
published only nine days back the lookup recurses nine times and returns
that quote instead of `null`, and against an unbounded run of quote-less
days it never returns at all (no amount of fuel suffices). -/
theorem getPTAXRate_recursion_unbounded :
    getPTAXRate ptaxQuoteNineBack 20 0 = some (some ⟨1, 2, "2026-10-02"⟩) ∧
    ∀ fuel : Nat, getPTAXRate ptaxAllEmpty fuel 0 = none := by
  constructor
  · with_unfolding_all rfl
  · intro fuel
    exact getPTAXRate_allEmpty_no_result fuel 0

/-! ## C4 — the BRL short circuit -/

/-- C4: for any amount and any letter case of the currency code `BRL`,
`convertToBRL` returns the 1:1 identity conversion — exchange rate `1`,
source `stripe_balance`, `amountBrl` exactly the input amount and no fee
fields — and consults none of the three lookup sources (the call trace
is zero for Stripe, PTAX and the fallback table). -/
theorem convertToBRL_brl_short_circuit (env : ConvEnv) (p : ConvertParams)
    (h : p.currency.toUpper = "BRL") :
    (convertToBRL env p).1.exchangeRate = 1 ∧
    (convertToBRL env p).1.source = ConvSource.stripe_balance ∧
    (convertToBRL env p).1.amountBrl = p.amount ∧
    (convertToBRL env p).1.originalAmount = p.amount ∧
    (convertToBRL env p).1.stripeFeesBrl = none ∧
    (convertToBRL env p).1.netAmountBrl = none ∧
    (convertToBRL env p).2 = ⟨0, 0, 0⟩ := by
  simp [convertToBRL, h]

/-- Witness for C4 at the lower-case code `"brl"` and amount `250`. -/
theorem convertToBRL_brl_short_circuit_witness :
    (convertToBRL sampleConvEnv ⟨250, "brl", none, none⟩).1.exchangeRate = 1 ∧
    (convertToBRL sampleConvEnv ⟨250, "brl", none, none⟩).1.source = ConvSource.stripe_balance ∧
    (convertToBRL sampleConvEnv ⟨250, "brl", none, none⟩).1.amountBrl = 250 ∧
    (convertToBRL sampleConvEnv ⟨250, "brl", none, none⟩).1.originalAmount = 250 ∧
    (convertToBRL sampleConvEnv ⟨250, "brl", none, none⟩).1.stripeFeesBrl = none ∧
    (convertToBRL sampleConvEnv ⟨250, "brl", none, none⟩).1.netAmountBrl = none ∧
    (convertToBRL sampleConvEnv ⟨250, "brl", none, none⟩).2 = ⟨0, 0, 0⟩ :=
  convertToBRL_brl_short_circuit sampleConvEnv ⟨250, "brl", none, none⟩
    (by with_unfolding_all rfl)

/-! ## C5 — fallback when Stripe and PTAX are unavailable -/

/-- A successful lookup in the fallback table pins the key to one of the
seven configured currency codes and the rate to a nonzero table value. -/
lemma tableLookup_fallback_cases (t : String) (r : ℚ)
    (h : tableLookup FALLBACK_RATES t = some r) :
    (t = "USD" ∨ t = "EUR" ∨ t = "GBP" ∨ t = "CAD" ∨ t = "AUD" ∨ t = "JPY" ∨ t = "CHF")
      ∧ r ≠ 0 := by
  simp only [FALLBACK_RATES, tableLookup] at h
  split_ifs at h with h1 h2 h3 h4 h5 h6 h7
  · exact ⟨Or.inl h1, by injection h with hv; rw [← hv]; norm_num⟩
  · exact ⟨Or.inr (Or.inl h2), by injection h with hv; rw [← hv]; norm_num⟩
  · exact ⟨Or.inr (Or.inr (Or.inl h3)), by injection h with hv; rw [← hv]; norm_num⟩
  · exact ⟨Or.inr (Or.inr (Or.inr (Or.inl h4))), by injection h with hv; rw [← hv]; norm_num⟩
  · exact ⟨Or.inr (Or.inr (Or.inr (Or.inr (Or.inl h5)))), by injection h with hv; rw [← hv]; norm_num⟩
  · exact ⟨Or.inr (Or.inr (Or.inr (Or.inr (Or.inr (Or.inl h6))))), by injection h with hv; rw [← hv]; norm_num⟩
  · exact ⟨Or.inr (Or.inr (Or.inr (Or.inr (Or.inr (Or.inr h7))))), by injection h with hv; rw [← hv]; norm_num⟩

/-- Evaluation of `getFallbackRate` at a key that is its own upper case
and has a nonzero table entry. -/
lemma getFallbackRate_eval_key (k : String) (r : ℚ) (hk : k.toUpper = k)
    (hr : tableLookup FALLBACK_RATES k = some r) (hr0 : r ≠ 0) :
    getFallbackRate k = r := by
  unfold getFallbackRate
  rw [hk, hr]
  simp [hr0]

/-- C5: for a non-BRL currency with both Stripe lookups and the PTAX
lookup unavailable, `convertToBRL` still returns a result (the embedding
is a total function — no path of the source throws for "not found"),
with source `fallback` and, whenever the fixed fallback table has an
entry for the currency, exactly that table rate. -/
theorem convertToBRL_fallback_when_sources_unavailable (env : ConvEnv) (p : ConvertParams)
    (hbrl : p.currency.toUpper ≠ "BRL")
    (hstripe : ∀ cid, env.stripeByCharge cid = none)
    (hpi : ∀ pid, env.stripeByPaymentIntent pid = none)
    (hptax : env.ptax p.currency.toUpper = none) :
    (convertToBRL env p).1.source = ConvSource.fallback ∧
    (convertToBRL env p).1.exchangeRate = getFallbackRate p.currency.toUpper ∧
    ∀ r, tableLookup FALLBACK_RATES p.currency.toUpper = some r →
      (convertToBRL env p).1.exchangeRate = r := by
  have hres : (convertToBRL env p).1.source = ConvSource.fallback ∧
      (convertToBRL env p).1.exchangeRate = getFallbackRate p.currency.toUpper := by
    unfold convertToBRL
    simp only [if_neg hbrl]
    rcases hc : optTruthy p.chargeId with _ | cid <;>
      rcases hp : optTruthy p.paymentIntentId with _ | pid <;>
        simp [hc, hp, hstripe, hpi, hptax]
  refine ⟨hres.1, hres.2, fun r hr => ?_⟩
  rw [hres.2]
  obtain ⟨hkeys, hr0⟩ := tableLookup_fallback_cases _ _ hr
  rcases hkeys with h | h | h | h | h | h | h <;> rw [h] at hr ⊢ <;>
    exact getFallbackRate_eval_key _ _ (by with_unfolding_all rfl) hr hr0

/-- Witness for C5: euros with every source down resolve through the
fallback table at rate 6. -/
theorem convertToBRL_fallback_witness :
    (convertToBRL sampleConvEnv ⟨20, "EUR", none, none⟩).1.source = ConvSource.fallback ∧
    (convertToBRL sampleConvEnv ⟨20, "EUR", none, none⟩).1.exchangeRate
      = getFallbackRate (("EUR" : String).toUpper) ∧
    ∀ r, tableLookup FALLBACK_RATES (("EUR" : String).toUpper) = some r →
      (convertToBRL sampleConvEnv ⟨20, "EUR", none, none⟩).1.exchangeRate = r := by
  have h := convertToBRL_fallback_when_sources_unavailable sampleConvEnv
    ⟨20, "EUR", none, none⟩ (by with_unfolding_all decide)
    (fun _ => rfl) (fun _ => rfl) rfl
  exact h

/-! ## C7 — the audit string -/

/-- C7 (counterexample): the claim says every result, including the BRL
identity result, carries an audit string of the template form.  The BRL
short-circuit result instead carries the fixed string
"Pagamento em BRL - sem conversão necessária", which differs from the
template instantiated at that result's own field values. -/
theorem convertToBRL_brl_audit_not_template :
    (convertToBRL sampleConvEnv ⟨100, "BRL", none, none⟩).1.auditDescription
      = "Pagamento em BRL - sem conversão necessária" ∧
    (convertToBRL sampleConvEnv ⟨100, "BRL", none, none⟩).1.auditDescription
      ≠ auditTemplate
          (convertToBRL sampleConvEnv ⟨100, "BRL", none, none⟩).1.originalAmount
          (convertToBRL sampleConvEnv ⟨100, "BRL", none, none⟩).1.originalCurrency
          (convertToBRL sampleConvEnv ⟨100, "BRL", none, none⟩).1.exchangeRate
          (convertToBRL sampleConvEnv ⟨100, "BRL", none, none⟩).1.source
          (convertToBRL sampleConvEnv ⟨100, "BRL", none, none⟩).1.stripeFeesBrl := by
  constructor
  · with_unfolding_all rfl
  · with_unfolding_all decide

/-- C7 (amended): every non-BRL result of `convertToBRL` carries an
audit string of the template form "`Valor original: <symbol><amount> -
<source label>: R$ <rate to 4 decimals>[ - Taxas operacionais: R$
<fees>]`" instantiated at the result's own amount, currency, rate,
source and fees; the BRL identity result instead carries the fixed
string "Pagamento em BRL - sem conversão necessária". -/
theorem convertToBRL_audit_description_form (env : ConvEnv) (p : ConvertParams) :
    (p.currency.toUpper ≠ "BRL" →
      (convertToBRL env p).1.auditDescription =
        auditTemplate (convertToBRL env p).1.originalAmount
          (convertToBRL env p).1.originalCurrency
          (convertToBRL env p).1.exchangeRate
          (convertToBRL env p).1.source
          (convertToBRL env p).1.stripeFeesBrl) ∧
    (p.currency.toUpper = "BRL" →
      (convertToBRL env p).1.auditDescription =
        "Pagamento em BRL - sem conversão necessária") := by
  constructor
  · intro hbrl
    unfold convertToBRL
    simp only [if_neg hbrl]
    split
    · simp only [buildAuditDescription_eq_template]
    · split
      · simp only [buildAuditDescription_eq_template]
      · split
        · simp only [buildAuditDescription_eq_template]
        · simp only [buildAuditDescription_eq_template]
  · intro hbrl
    unfold convertToBRL
    simp only [if_pos hbrl]

/-- Witness for C7's amended theorem, at dollars through the fallback
source and at the BRL identity case (the hypotheses of both conjuncts
discharged at concrete inputs). -/
theorem convertToBRL_audit_description_form_witness :
    ((convertToBRL sampleConvEnv ⟨10, "USD", none, none⟩).1.auditDescription =
      auditTemplate (convertToBRL sampleConvEnv ⟨10, "USD", none, none⟩).1.originalAmount
        (convertToBRL sampleConvEnv ⟨10, "USD", none, none⟩).1.originalCurrency
        (convertToBRL sampleConvEnv ⟨10, "USD", none, none⟩).1.exchangeRate
        (convertToBRL sampleConvEnv ⟨10, "USD", none, none⟩).1.source
        (convertToBRL sampleConvEnv ⟨10, "USD", none, none⟩).1.stripeFeesBrl) ∧
    ((convertToBRL sampleConvEnv ⟨10, "brl", none, none⟩).1.auditDescription =
      "Pagamento em BRL - sem conversão necessária") :=
  ⟨(convertToBRL_audit_description_form sampleConvEnv ⟨10, "USD", none, none⟩).1
      (by with_unfolding_all decide),
   (convertToBRL_audit_description_form sampleConvEnv ⟨10, "brl", none, none⟩).2
      (by with_unfolding_all rfl)⟩

/-! ## C8 — the 55 USD at 5.40 scenario -/

set_option maxRecDepth 10000 in
/-- Binary64 product of the doubles `55` and `5.4` is exactly `297`
(`5.4` is not representable; its nearest double times 55 rounds back to
the representable 297). -/
lemma fpMul_55_double54 : fpMul 55 double54 = 297 := by
  with_unfolding_all rfl

/-- C8: converting 55.00 USD with no Stripe references against an
official sell rate quoted as 5.40 (the binary64 value the JSON literal
denotes) yields exactly `amountBrl = 297` — the floating-point product
`55 * 5.4` rounds to the representable 297 — with source `ptax`. -/
theorem convertToBRL_usd55_official54 (env : ConvEnv) (q : PTAXQuote)
    (hq : env.ptax "USD" = some q)
    (hrate : q.sellRate = double54) :
    (convertToBRL env ⟨55, "USD", none, none⟩).1.amountBrl = 297 ∧
    (convertToBRL env ⟨55, "USD", none, none⟩).1.source = ConvSource.ptax := by
  have hU : ("USD" : String).toUpper = "USD" := by with_unfolding_all rfl
  unfold convertToBRL
  simp only [hU, optTruthy]
  rw [hq]
  simp only []
  refine ⟨?_, by simp⟩
  simp only [hrate]
  simpa using fpMul_55_double54

/-- Witness for C8 in the environment whose PTAX oracle quotes 5.40 for
USD. -/
theorem convertToBRL_usd55_official54_witness :
    (convertToBRL ptax54Env ⟨55, "USD", none, none⟩).1.amountBrl = 297 ∧
    (convertToBRL ptax54Env ⟨55, "USD", none, none⟩).1.source = ConvSource.ptax :=
  convertToBRL_usd55_official54 ptax54Env ⟨double54, double54, "2026-10-10"⟩
    (by with_unfolding_all rfl) rfl

/-! ## Webhook Reconciler — `routes/fiscal/index.ts` and the `nfse` table -/

/-- Abstract timestamps: each `new Date()` during a request is the
request's tick. -/
def Time : Type := Nat

deriving instance Repr, DecidableEq for Time

/-- One row of the `nfse` table (`db/schema/fiscal.ts`), with every
column that an update could touch or must leave unchanged. -/
structure NfseRow where
  id : Nat
  userId : Nat
  taxInfoId : Nat
  fiscalNacionalId : Option String
  fiscalNacionalReference : String
  stripeSubscriptionId : Option String
  stripeInvoiceId : Option String
  stripePaymentIntentId : Option String
  stripeChargeId : Option String
  transactionType : String
  nfseNumber : Option String
  status : String
  serviceDescription : String
  productName : Option String
  valueBrl : ℚ
  valueUsd : Option ℚ
  originalAmount : Option ℚ
  originalCurrency : Option String
  currencyCode : Option String
  exchangeRate : Option ℚ
  issRate : ℚ
  issValue : ℚ
  customerName : String
  customerEmail : String
  customerCountry : String
  customerDocument : Option String
  pdfUrl : Option String
  xmlUrl : Option String
  errorMessage : Option String
  errorDetails : Option String
  issuedAt : Option Time
  cancelledAt : Option Time
  cancellationReason : Option String
  createdAt : Time
  updatedAt : Time
deriving Repr, DecidableEq

/-- The `nfse` table. -/
structure Db where
  rows : List NfseRow
deriving Repr, DecidableEq

/-- The dynamic `updateData` object the webhook handler builds: `status`
and `updatedAt` are always present; the remaining keys are present
(`some`) only when the corresponding branch added them. -/
structure UpdateMap where
  status : String
  updatedAt : Time
  issuedAt : Option Time := none
  nfseNumber : Option String := none
  pdfUrl : Option String := none
  xmlUrl : Option String := none
  errorMessage : Option String := none
  cancelledAt : Option Time := none
deriving Repr, DecidableEq

/-- Drizzle's `.set(updateData)` on one row: keys present in the update
map overwrite the column, absent keys leave it unchanged, and no other
column is touched. -/
def applySet (u : UpdateMap) (r : NfseRow) : NfseRow :=
  { r with
    status := u.status
    updatedAt := u.updatedAt
    issuedAt := match u.issuedAt with | some t => some t | none => r.issuedAt
    nfseNumber := match u.nfseNumber with | some v => some v | none => r.nfseNumber
    pdfUrl := match u.pdfUrl with | some v => some v | none => r.pdfUrl
    xmlUrl := match u.xmlUrl with | some v => some v | none => r.xmlUrl
    errorMessage := match u.errorMessage with | some v => some v | none => r.errorMessage
    cancelledAt := match u.cancelledAt with | some t => some t | none => r.cancelledAt }

/-- `db.update(nfse).set(u).where(eq(nfse.fiscalNacionalReference,
reference))`: apply the update map to every matching row. -/
def dbUpdateByReference (db : Db) (reference : String) (u : UpdateMap) : Db :=
  ⟨db.rows.map fun r => if r.fiscalNacionalReference = reference then applySet u r else r⟩

/-- Raw JSON object produced by `JSON.parse` of the webhook body,
restricted to the keys the schema inspects (absent key = `none`;
non-string values and non-object bodies are folded into the decoder
oracle returning `none`). -/
structure RawWebhookBody where
  event : Option String := none
  reference : Option String := none
  status : Option String := none
  nfse_number : Option String := none
  pdf_url : Option String := none
  xml_url : Option String := none
  error_message : Option String := none
  timestamp : Option String := none
deriving Repr, DecidableEq

/-- A payload accepted by `webhookSchema`. -/
structure WebhookPayload where
  event : String
  reference : String
  status : String
  nfse_number : Option String := none
  pdf_url : Option String := none
  xml_url : Option String := none
  error_message : Option String := none
  timestamp : String
deriving Repr, DecidableEq

/-- The zod `webhookSchema.parse`: `event`, `reference`, `status` and
`timestamp` must be present (arbitrary strings — the schema constrains
none of their values); the remaining fields are optional and passed
through; a missing required field throws (`none`). -/
def webhookSchemaParse (raw : RawWebhookBody) : Option WebhookPayload :=
  match raw.event, raw.reference, raw.status, raw.timestamp with
  | some e, some ref, some st, some ts =>
    some { event := e, reference := ref, status := st,
           nfse_number := raw.nfse_number, pdf_url := raw.pdf_url,
           xml_url := raw.xml_url, error_message := raw.error_message,
           timestamp := ts }
  | _, _, _, _ => none

/-- The `updateData` construction of
`app.post "/webhook"` (identical in `updateNFSeFromWebhook`): always
`status` and `updatedAt`; for `"authorized"` also `issuedAt = now` and
the three document fields when truthy in the payload; for `"error"` the
message defaulted through `||`; for `"cancelled"` the timestamp. -/
def buildUpdateData (now : Time) (p : WebhookPayload) : UpdateMap :=
  let u : UpdateMap := { status := p.status, updatedAt := now }
  let u := if p.status = "authorized" then
      { u with issuedAt := some now
               nfseNumber := optTruthy p.nfse_number
               pdfUrl := optTruthy p.pdf_url
               xmlUrl := optTruthy p.xml_url }
    else u
  let u := if p.status = "error" then
      { u with errorMessage := some (match optTruthy p.error_message with
          | some m => m
          | none => "Unknown error") }
    else u
  if p.status = "cancelled" then { u with cancelledAt := some now } else u

/-- Request-level environment of one webhook delivery. -/
structure WebhookEnv where
  signature : Option String
  webhookSecret : Option String
  body : String
  now : Time

/-- The `POST /webhook` handler.  `hmac secret body` is the hex
HMAC-SHA256 oracle (`createHmac("sha256", secret).update(body)`);
`jsonDecode` is the `JSON.parse` outcome for the raw body.  The
constant-time buffer comparison of equal-hex-strings is string equality
(a length mismatch or `timingSafeEqual` failure is exactly string
inequality).  A `JSON.parse` or schema throw happens outside the `try`
block, so it surfaces as the framework's 500 with no update executed.
Returns the HTTP status code and the resulting table. -/
def webhookHandler (hmac : String → String → String)
    (jsonDecode : String → Option RawWebhookBody)
    (env : WebhookEnv) (db : Db) : Nat × Db :=
  match optTruthy env.signature, optTruthy env.webhookSecret with
  | some signature, some webhookSecret =>
    let expectedSignature := hmac webhookSecret env.body
    if signature ≠ expectedSignature then (401, db)
    else
      match jsonDecode env.body with
      | none => (500, db)
      | some raw =>
        match webhookSchemaParse raw with
        | none => (500, db)
        | some data =>
          (200, dbUpdateByReference db data.reference (buildUpdateData env.now data))
  | _, _ => (401, db)

/-- Success path of the webhook handler: with a truthy signature equal
to the HMAC of the raw body under the truthy secret, and a body that
decodes and parses, the handler returns 200 and applies exactly one
update statement keyed on the payload's reference. -/
lemma webhookHandler_success (hmac : String → String → String)
    (jsonDecode : String → Option RawWebhookBody)
    (env : WebhookEnv) (db : Db) (s k : String)
    (raw : RawWebhookBody) (data : WebhookPayload)
    (hs : optTruthy env.signature = some s)
    (hk : optTruthy env.webhookSecret = some k)
    (hmatch : s = hmac k env.body)
    (hdecode : jsonDecode env.body = some raw)
    (hparse : webhookSchemaParse raw = some data) :
    webhookHandler hmac jsonDecode env db =
      (200, dbUpdateByReference db data.reference (buildUpdateData env.now data)) := by
  unfold webhookHandler
  rw [hs, hk]
  simp [hmatch, hdecode, hparse]

/-- Sample invoice row used by the concrete webhook witnesses. -/
def sampleRow : NfseRow :=
  { id := 1
    userId := 7
    taxInfoId := 3
    fiscalNacionalId := none
    fiscalNacionalReference := "R1"
    stripeSubscriptionId := some "sub_1"
    stripeInvoiceId := some "in_1"
    stripePaymentIntentId := none
    stripeChargeId := none
    transactionType := "subscription"
    nfseNumber := none
    status := "processing"
    serviceDescription := "desc"
    productName := some "Pro"
    valueBrl := 100
    valueUsd := none
    originalAmount := some 20
    originalCurrency := some "USD"
    currencyCode := none
    exchangeRate := some 5
    issRate := 2 / 100
    issValue := 0
    customerName := "Alice"
    customerEmail := "alice@example.com"
    customerCountry := "BR"
    customerDocument := some "12345678901"
    pdfUrl := none
    xmlUrl := none
    errorMessage := none
    errorDetails := none
    issuedAt := none
    cancelledAt := none
    cancellationReason := none
    createdAt := (0 : Nat)
    updatedAt := (0 : Nat) }

/-- Sample single-row table. -/
def sampleDb : Db :=
  ⟨[sampleRow]⟩

/-- Concatenation stand-in for the HMAC oracle in witnesses (any
function works: the theorems are parametric in it). -/
def hmacConcat (k b : String) : String :=
  k ++ "|" ++ b

/-! ## C2 — authentication failures reject with no state change -/

/-- C2: if the signature header is absent, or the configured webhook
secret is absent, or the signature does not equal the HMAC of the raw
body under the secret, the handler answers 401 and the table is returned
unchanged — no row is updated.  (The source's falsy check also rejects
empty-string headers and secrets; those cases are likewise covered by
the proof since an empty string can never equal the asserted mismatching
signature or reach the comparison.) -/
theorem webhook_auth_failure_rejects (hmac : String → String → String)
    (jsonDecode : String → Option RawWebhookBody)
    (env : WebhookEnv) (db : Db)
    (h : env.signature = none ∨ env.webhookSecret = none ∨
      (∀ k, env.webhookSecret = some k → env.signature ≠ some (hmac k env.body))) :
    webhookHandler hmac jsonDecode env db = (401, db) := by
  unfold webhookHandler
  rcases hs : optTruthy env.signature with _ | s
  · rfl
  · rcases hk : optTruthy env.webhookSecret with _ | k
    · rfl
    · have hsigVal : env.signature = some s := by
        unfold optTruthy at hs
        rcases hsig : env.signature with _ | s0
        · rw [hsig] at hs; exact absurd hs (by simp)
        · rw [hsig] at hs
          by_cases h0 : s0 = "" <;> simp [h0] at hs <;> rw [hs]
      have hkVal : env.webhookSecret = some k := by
        unfold optTruthy at hk
        rcases hsec : env.webhookSecret with _ | k0
        · rw [hsec] at hk; exact absurd hk (by simp)
        · rw [hsec] at hk
          by_cases h0 : k0 = "" <;> simp [h0] at hk <;> rw [hk]
      rcases h with h | h | h
      · exact absurd hsigVal (by rw [h]; simp)
      · exact absurd hkVal (by rw [h]; simp)
      · have hne : s ≠ hmac k env.body := by
          intro he
          exact h k hkVal (by rw [hsigVal, he])
        simp [hne]

/-- Witness for C2: a request with no signature header is rejected with
401 and an unchanged table. -/
theorem webhook_auth_failure_rejects_witness :
    webhookHandler hmacConcat (fun _ => none)
      ⟨none, some "secret", "BODY", (5 : Nat)⟩ sampleDb = (401, sampleDb) :=
  webhook_auth_failure_rejects hmacConcat (fun _ => none)
    ⟨none, some "secret", "BODY", (5 : Nat)⟩ sampleDb (Or.inl rfl)

/-! ## C9 / C10 — applying an authenticated webhook -/

/-- A truthy optional string is that same present string. -/
lemma optTruthy_eq_some (o : Option String) (v : String)
    (h : optTruthy o = some v) : o = some v := by
  unfold optTruthy at h
  rcases o with _ | s
  · exact absurd h (by simp)
  · by_cases h0 : s = ""
    · simp [h0] at h
    · simp [h0] at h
      rw [h]

/-- C9: an authenticated `"authorized"` webhook answers 200 and applies
exactly one update: on every row matching the payload's reference the
status becomes `authorized`, `updatedAt` and `issuedAt` are set to the
request time, and the invoice number / PDF URL / XML URL are overwritten
only when the payload carries them (truthy) — a payload omitting one of
them leaves the stored value exactly as it was — while every other
column (in particular the customer snapshot and the monetary and
conversion fields) keeps its prior value; non-matching rows are
untouched. -/
theorem webhook_authorized_update (hmac : String → String → String)
    (jsonDecode : String → Option RawWebhookBody)
    (env : WebhookEnv) (db : Db) (s k : String)
    (raw : RawWebhookBody) (data : WebhookPayload)
    (hs : optTruthy env.signature = some s)
    (hk : optTruthy env.webhookSecret = some k)
    (hmatch : s = hmac k env.body)
    (hdecode : jsonDecode env.body = some raw)
    (hparse : webhookSchemaParse raw = some data)
    (hstatus : data.status = "authorized") :
    ∃ rows' : List NfseRow,
      webhookHandler hmac jsonDecode env db = (200, ⟨rows'⟩) ∧
      rows'.length = db.rows.length ∧
      ∀ i (hi : i < db.rows.length) (hi2 : i < rows'.length),
        (db.rows[i].fiscalNacionalReference ≠ data.reference →
          rows'[i] = db.rows[i]) ∧
        (db.rows[i].fiscalNacionalReference = data.reference →
          rows'[i] = { db.rows[i] with
            status := "authorized"
            updatedAt := env.now
            issuedAt := some env.now
            nfseNumber := match optTruthy data.nfse_number with
              | some v => some v
              | none => db.rows[i].nfseNumber
            pdfUrl := match optTruthy data.pdf_url with
              | some v => some v
              | none => db.rows[i].pdfUrl
            xmlUrl := match optTruthy data.xml_url with
              | some v => some v
              | none => db.rows[i].xmlUrl } ∧
          (data.nfse_number = none → rows'[i].nfseNumber = db.rows[i].nfseNumber) ∧
          (data.pdf_url = none → rows'[i].pdfUrl = db.rows[i].pdfUrl) ∧
          (data.xml_url = none → rows'[i].xmlUrl = db.rows[i].xmlUrl) ∧
          (rows'[i].nfseNumber ≠ db.rows[i].nfseNumber →
            ∃ v, data.nfse_number = some v ∧ rows'[i].nfseNumber = some v) ∧
          (rows'[i].pdfUrl ≠ db.rows[i].pdfUrl →
            ∃ v, data.pdf_url = some v ∧ rows'[i].pdfUrl = some v) ∧
          (rows'[i].xmlUrl ≠ db.rows[i].xmlUrl →
            ∃ v, data.xml_url = some v ∧ rows'[i].xmlUrl = some v)) := by
  have hu : buildUpdateData env.now data =
      { status := "authorized"
        updatedAt := env.now
        issuedAt := some env.now
        nfseNumber := optTruthy data.nfse_number
        pdfUrl := optTruthy data.pdf_url
        xmlUrl := optTruthy data.xml_url
        errorMessage := none
        cancelledAt := none } := by
    unfold buildUpdateData
    rw [hstatus]
    simp
  refine ⟨(dbUpdateByReference db data.reference (buildUpdateData env.now data)).rows,
    by rw [webhookHandler_success hmac jsonDecode env db s k raw data hs hk hmatch hdecode hparse],
    by simp [dbUpdateByReference], ?_⟩
  intro i hi hi2
  constructor
  · intro hne
    simp [dbUpdateByReference, if_neg hne]
  · intro heq
    have hrow : (dbUpdateByReference db data.reference (buildUpdateData env.now data)).rows[i] =
        applySet (buildUpdateData env.now data) db.rows[i] := by
      simp [dbUpdateByReference, if_pos heq]
    refine ⟨?_, ?_, ?_, ?_, ?_, ?_, ?_⟩
    · rw [hrow, hu]
      simp [applySet]
    · intro h0
      rw [hrow, hu]
      simp [applySet, h0, optTruthy]
    · intro h0
      rw [hrow, hu]
      simp [applySet, h0, optTruthy]
    · intro h0
      rw [hrow, hu]
      simp [applySet, h0, optTruthy]
    · intro hne
      rw [hrow, hu] at hne ⊢
      rcases hov : optTruthy data.nfse_number with _ | v
      · rw [applySet] at hne
        simp [hov] at hne
      · exact ⟨v, optTruthy_eq_some _ _ hov, by simp [applySet, hov]⟩
    · intro hne
      rw [hrow, hu] at hne ⊢
      rcases hov : optTruthy data.pdf_url with _ | v
      · rw [applySet] at hne
        simp [hov] at hne
      · exact ⟨v, optTruthy_eq_some _ _ hov, by simp [applySet, hov]⟩
    · intro hne
      rw [hrow, hu] at hne ⊢
      rcases hov : optTruthy data.xml_url with _ | v
      · rw [applySet] at hne
        simp [hov] at hne
      · exact ⟨v, optTruthy_eq_some _ _ hov, by simp [applySet, hov]⟩

/-- Raw body of the witness `"authorized"` webhook. -/
def authorizedRaw : RawWebhookBody :=
  { event := some "nfse.authorized"
    reference := some "R1"
    status := some "authorized"
    nfse_number := some "NF-77"
    timestamp := some "2026-10-11T00:00:00Z" }

/-- Parsed form of `authorizedRaw`. -/
def authorizedPayload : WebhookPayload :=
  { event := "nfse.authorized"
    reference := "R1"
    status := "authorized"
    nfse_number := some "NF-77"
    timestamp := "2026-10-11T00:00:00Z" }

/-- Witness for C9: a correctly signed `"authorized"` webhook carrying
only an invoice number, against the one-row sample table. -/
theorem webhook_authorized_update_witness :
    ∃ rows' : List NfseRow,
      webhookHandler hmacConcat (fun _ => some authorizedRaw)
        ⟨some (hmacConcat "secret" "BODY"), some "secret", "BODY", (5 : Nat)⟩ sampleDb
        = (200, ⟨rows'⟩) ∧
      rows'.length = sampleDb.rows.length ∧
      ∀ i (hi : i < sampleDb.rows.length) (hi2 : i < rows'.length),
        (sampleDb.rows[i].fiscalNacionalReference ≠ authorizedPayload.reference →
          rows'[i] = sampleDb.rows[i]) ∧
        (sampleDb.rows[i].fiscalNacionalReference = authorizedPayload.reference →
          rows'[i] = { sampleDb.rows[i] with
            status := "authorized"
            updatedAt := (5 : Nat)
            issuedAt := some (5 : Nat)
            nfseNumber := match optTruthy authorizedPayload.nfse_number with
              | some v => some v
              | none => sampleDb.rows[i].nfseNumber
            pdfUrl := match optTruthy authorizedPayload.pdf_url with
              | some v => some v
              | none => sampleDb.rows[i].pdfUrl
            xmlUrl := match optTruthy authorizedPayload.xml_url with
              | some v => some v
              | none => sampleDb.rows[i].xmlUrl } ∧
          (authorizedPayload.nfse_number = none →
            rows'[i].nfseNumber = sampleDb.rows[i].nfseNumber) ∧
          (authorizedPayload.pdf_url = none →
            rows'[i].pdfUrl = sampleDb.rows[i].pdfUrl) ∧
          (authorizedPayload.xml_url = none →
            rows'[i].xmlUrl = sampleDb.rows[i].xmlUrl) ∧
          (rows'[i].nfseNumber ≠ sampleDb.rows[i].nfseNumber →
            ∃ v, authorizedPayload.nfse_number = some v ∧ rows'[i].nfseNumber = some v) ∧
          (rows'[i].pdfUrl ≠ sampleDb.rows[i].pdfUrl →
            ∃ v, authorizedPayload.pdf_url = some v ∧ rows'[i].pdfUrl = some v) ∧
          (rows'[i].xmlUrl ≠ sampleDb.rows[i].xmlUrl →
            ∃ v, authorizedPayload.xml_url = some v ∧ rows'[i].xmlUrl = some v)) :=
  webhook_authorized_update hmacConcat (fun _ => some authorizedRaw)
    ⟨some (hmacConcat "secret" "BODY"), some "secret", "BODY", (5 : Nat)⟩ sampleDb
    (hmacConcat "secret" "BODY") "secret" authorizedRaw authorizedPayload
    (by with_unfolding_all rfl) (by with_unfolding_all rfl) rfl rfl
    (by with_unfolding_all rfl) rfl

/-- C10: an authenticated webhook whose parsed status is none of
`authorized`, `error`, `cancelled` — including the known passive
statuses `pending`/`processing` and entirely unrecognized strings — is
not rejected: the handler answers 200 and applies an update that sets
exactly `status` (verbatim, whatever the string is) and `updatedAt` on
the rows matching the reference, leaving everything else unchanged. -/
theorem webhook_unknown_status_updates_status_only (hmac : String → String → String)
    (jsonDecode : String → Option RawWebhookBody)
    (env : WebhookEnv) (db : Db) (s k : String)
    (raw : RawWebhookBody) (data : WebhookPayload)
    (hs : optTruthy env.signature = some s)
    (hk : optTruthy env.webhookSecret = some k)
    (hmatch : s = hmac k env.body)
    (hdecode : jsonDecode env.body = some raw)
    (hparse : webhookSchemaParse raw = some data)
    (ha : data.status ≠ "authorized")
    (he : data.status ≠ "error")
    (hc : data.status ≠ "cancelled") :
    webhookHandler hmac jsonDecode env db =
      (200, ⟨db.rows.map fun r =>
        if r.fiscalNacionalReference = data.reference then
          { r with status := data.status, updatedAt := env.now }
        else r⟩) := by
  rw [webhookHandler_success hmac jsonDecode env db s k raw data hs hk hmatch hdecode hparse]
  have hu : buildUpdateData env.now data =
      { status := data.status, updatedAt := env.now } := by
    unfold buildUpdateData
    simp [ha, he, hc]
  unfold dbUpdateByReference
  simp only [hu, applySet]

/-- Raw body of the witness webhook with the unrecognized status
`"bogus"`. -/
def bogusRaw : RawWebhookBody :=
  { event := some "nfse.updated"
    reference := some "R1"
    status := some "bogus"
    timestamp := some "2026-10-11T00:00:00Z" }

/-- Parsed form of `bogusRaw`. -/
def bogusPayload : WebhookPayload :=
  { event := "nfse.updated"
    reference := "R1"
    status := "bogus"
    timestamp := "2026-10-11T00:00:00Z" }

/-- Witness for C10: an authenticated webhook with status `"bogus"`
against the sample table is accepted and rewrites only `status` and
`updatedAt` of the matching row. -/
theorem webhook_unknown_status_witness :
    webhookHandler hmacConcat (fun _ => some bogusRaw)
      ⟨some (hmacConcat "secret" "BODY"), some "secret", "BODY", (5 : Nat)⟩ sampleDb =
      (200, ⟨sampleDb.rows.map fun r =>
        if r.fiscalNacionalReference = bogusPayload.reference then
          { r with status := bogusPayload.status, updatedAt := (5 : Nat) }
        else r⟩) :=
  webhook_unknown_status_updates_status_only hmacConcat (fun _ => some bogusRaw)
    ⟨some (hmacConcat "secret" "BODY"), some "secret", "BODY", (5 : Nat)⟩ sampleDb
    (hmacConcat "secret" "BODY") "secret" bogusRaw bogusPayload
    (by with_unfolding_all rfl) (by with_unfolding_all rfl) rfl rfl
    (by with_unfolding_all rfl)
    (by with_unfolding_all decide) (by with_unfolding_all decide)
    (by with_unfolding_all decide)

/-! ## Invoice Issuer — `nfse.service.ts` and the Fiscal Nacional client -/

/-- Persisted tax-profile row (`user_tax_info` in `db/schema/fiscal.ts`):
`country` and `fullName` are NOT NULL columns, everything else nullable. -/
structure TaxInfo where
  id : Nat
  userId : Nat
  country : String
  isBrazilian : Bool
  cpfCnpj : Option String
  nif : Option String
  nifExemptionCode : Option String
  fullName : String
  address : Option String
  number : Option String
  complement : Option String
  neighborhood : Option String
  city : Option String
  cityCode : Option String
  state : Option String
  postalCode : Option String
  inscricaoMunicipal : Option String
deriving Repr, DecidableEq

/-- Domestic address block of the tomador payload.  The source copies
nullable columns through non-null assertions (`taxInfo.address!`), so a
field can be absent at runtime; only `cep` calls a method
(`.replace`). -/
structure TomadorEndereco where
  logradouro : Option String
  numero : Option String
  complemento : Option String
  bairro : Option String
  codigoMunicipio : Option String
  uf : Option String
  cep : String
deriving Repr, DecidableEq

/-- Tomador (customer) payload, covering the domestic and foreign
shapes. -/
structure Tomador where
  cpfCnpj : Option String := none
  nomeRazaoSocial : String
  email : String
  endereco : Option TomadorEndereco := none
  pais : Option String := none
  nif : Option String := none
  enderecoExterior : Option String := none
deriving Repr, DecidableEq

/-- The foreign-address synthesis:
`[address, city, postalCode].filter(Boolean).join(", ") || undefined`. -/
def joinForeignAddress (t : TaxInfo) : Option String :=
  let s := String.intercalate ", " ([t.address, t.city, t.postalCode].filterMap optTruthy)
  if s = "" then none else some s

/-- The `_buildTomadorFromTaxInfo` method.  The two non-null assertions
that dereference a possibly-null value (`taxInfo.cpfCnpj!.length` when
`fullName` is falsy, `taxInfo.postalCode!.replace`) are the only runtime
throw points and are modelled as `Except.error`; every other `!` merely
copies a possibly-null value into the payload. -/
def buildTomadorFromTaxInfo (t : TaxInfo) (email : String) : Except String Tomador :=
  if t.isBrazilian then
    let nome : Except String String :=
      if t.fullName ≠ "" then .ok t.fullName
      else
        match t.cpfCnpj with
        | none => .error "TypeError: Cannot read properties of null (reading length)"
        | some d => .ok ((if d.length ≤ 11 then "CPF" else "CNPJ") ++ " " ++ d)
    match nome with
    | .error e => .error e
    | .ok nome =>
      match t.postalCode with
      | none => .error "TypeError: Cannot read properties of null (reading replace)"
      | some pc =>
        .ok { cpfCnpj := t.cpfCnpj
              nomeRazaoSocial := nome
              email := email
              endereco := some
                { logradouro := t.address
                  numero := t.number
                  complemento := optTruthy t.complement
                  bairro := t.neighborhood
                  codigoMunicipio := t.cityCode
                  uf := t.state
                  cep := digitsOnly pc } }
  else
    .ok { nomeRazaoSocial := t.fullName
          email := email
          pais := some t.country
          nif := optTruthy t.nif
          enderecoExterior := joinForeignAddress t }

/-- The string code of a conversion source (the union's literal
values). -/
def sourceCode : ConvSource → String
  | .stripe_balance => "stripe_balance"
  | .ptax => "ptax"
  | .fallback => "fallback"

/-- The `_buildServiceDescription` method: the four-line service
description. -/
def buildServiceDescription (productName : String) (amount : ℚ) (currency : String)
    (exchangeRate : ℚ) (source : ConvSource) : String :=
  String.intercalate "\n"
    ["Serviço: " ++ productName,
     "Valor Original: " ++ toFixed amount 2 ++ " " ++ currency,
     "Taxa de Câmbio: " ++ toFixed exchangeRate 4,
     "Fonte: " ++ sourceCode source]

/-- `servico` block of a `CreateNFSeRequest`. -/
structure ServicoData where
  valorServicos : ℚ
  itemListaServico : String
  codigoTributacaoMunicipio : String
  discriminacao : String
  codigoCnae : Option String
deriving Repr, DecidableEq

/-- `impostos` block of a `CreateNFSeRequest` (the fields the service
fills). -/
structure ImpostosData where
  issRetido : Bool
  aliquotaIss : Option ℚ
deriving Repr, DecidableEq

/-- Request of `FiscalNacionalClient.createNFSe`. -/
structure CreateNFSeRequest where
  tomador : Tomador
  servico : ServicoData
  impostos : ImpostosData
  referenciaExterna : String
deriving Repr, DecidableEq

/-- Response of `FiscalNacionalClient.createNFSe` on a 2xx. -/
structure CreateNFSeResponse where
  reference : String
  status : String
  nfseNumber : Option String := none
  verificationCode : Option String := none
  pdfUrl : Option String := none
  xmlUrl : Option String := none
deriving Repr, DecidableEq

/-- Company configuration consumed by the service when composing the
request. -/
structure FiscalNacionalConfig where
  itemListaServico : String
  codigoTributacaoMunicipio : String
  codigoCnae : Option String
  aliquotaIss : Option ℚ
deriving Repr, DecidableEq

/-- Outcome of the drizzle `insert(...).returning()`: the statement can
reject (no row written), succeed returning the row, or succeed returning
an empty array (the source's `if (!created) throw` guard). -/
inductive InsertOutcome where
  | fail (e : String)
  | okEmpty
  | okRow
deriving Repr, DecidableEq

/-- Environment of one issuance call: the currency-resolver oracles, the
tax-profile select, the Fiscal Nacional client (a rejected promise — a
non-2xx `CreateInvoice` response — is `Except.error` carrying the thrown
message), and the insert outcome. -/
structure IssueEnv where
  conv : ConvEnv
  taxInfoFor : Nat → Option TaxInfo
  createNFSe : CreateNFSeRequest → Except String CreateNFSeResponse
  insertOutcome : InsertOutcome
  config : FiscalNacionalConfig
  now : Time

/-- Parameters of `createNFSeForSubscription`. -/
structure SubscriptionParams where
  userId : Nat
  stripeSubscriptionId : String
  stripeInvoiceId : String
  stripeChargeId : Option String := none
  stripePaymentIntentId : Option String := none
  amount : ℚ
  currency : String
  planName : String
  userEmail : String

/-- Parameters of `createNFSeForCreditPurchase`. -/
structure CreditPurchaseParams where
  userId : Nat
  stripePaymentIntentId : String
  stripeChargeId : Option String := none
  amount : ℚ
  currency : String
  creditAmount : Nat
  userEmail : String

/-- Result of one issuance call: the promise outcome (`.ok` with the
created row id or `.error` with the thrown message), the resulting
table, and how many times the Fiscal Nacional client was invoked. -/
structure IssueResult where
  outcome : Except String Nat
  db : Db
  fiscalCalls : Nat

/-- The row inserted by `createNFSeForSubscription` (its `values`
object, with the table's column defaults for everything unset). -/
def subscriptionRow (env : IssueEnv) (db : Db) (p : SubscriptionParams)
    (taxInfo : TaxInfo) (conversion : CurrencyConversionResult)
    (serviceDescription : String) (resp : CreateNFSeResponse) : NfseRow :=
  { id := db.rows.length
    userId := p.userId
    taxInfoId := taxInfo.id
    fiscalNacionalId := none
    fiscalNacionalReference := resp.reference
    stripeSubscriptionId := some p.stripeSubscriptionId
    stripeInvoiceId := some p.stripeInvoiceId
    stripePaymentIntentId := optTruthy p.stripePaymentIntentId
    stripeChargeId := optTruthy p.stripeChargeId
    transactionType := "subscription"
    nfseNumber := optTruthy resp.nfseNumber
    status := resp.status
    serviceDescription := serviceDescription
    productName := some p.planName
    valueBrl := conversion.amountBrl
    valueUsd := if p.currency = "USD" then some p.amount else none
    originalAmount := some p.amount
    originalCurrency := some p.currency
    currencyCode := none
    exchangeRate := some conversion.exchangeRate
    issRate := 2 / 100
    issValue := 0
    customerName := taxInfo.fullName
    customerEmail := p.userEmail
    customerCountry := taxInfo.country
    customerDocument := orTruthy taxInfo.cpfCnpj taxInfo.nif
    pdfUrl := optTruthy resp.pdfUrl
    xmlUrl := optTruthy resp.xmlUrl
    errorMessage := none
    errorDetails := none
    issuedAt := none
    cancelledAt := none
    cancellationReason := none
    createdAt := env.now
    updatedAt := env.now }

/-- The `createNFSeForSubscription` method: tax-profile lookup, currency
conversion, service description, tomador construction, the external
`createNFSe` call, and only then the insert. -/
def createNFSeForSubscription (env : IssueEnv) (db : Db) (p : SubscriptionParams) :
    IssueResult :=
  match env.taxInfoFor p.userId with
  | none => ⟨.error "User tax information not found", db, 0⟩
  | some taxInfo =>
    let conversion := (convertToBRL env.conv
      ⟨p.amount, p.currency, p.stripeChargeId, p.stripePaymentIntentId⟩).1
    let serviceDescription := buildServiceDescription p.planName p.amount p.currency
      conversion.exchangeRate conversion.source
    let externalReference := "user_" ++ Nat.repr p.userId ++ "_sub_" ++ p.stripeSubscriptionId
    match buildTomadorFromTaxInfo taxInfo p.userEmail with
    | .error e => ⟨.error e, db, 0⟩
    | .ok tomador =>
      let req : CreateNFSeRequest :=
        { tomador := tomador
          servico :=
            { valorServicos := conversion.amountBrl
              itemListaServico := env.config.itemListaServico
              codigoTributacaoMunicipio := env.config.codigoTributacaoMunicipio
              discriminacao := serviceDescription
              codigoCnae := env.config.codigoCnae }
          impostos := { issRetido := false, aliquotaIss := env.config.aliquotaIss }
          referenciaExterna := externalReference }
      match env.createNFSe req with
      | .error e => ⟨.error e, db, 1⟩
      | .ok resp =>
        let newRow := subscriptionRow env db p taxInfo conversion serviceDescription resp
        match env.insertOutcome with
        | .fail e => ⟨.error e, db, 1⟩
        | .okEmpty => ⟨.error "Failed to create NFS-e record", ⟨db.rows ++ [newRow]⟩, 1⟩
        | .okRow => ⟨.ok newRow.id, ⟨db.rows ++ [newRow]⟩, 1⟩

/-- The row inserted by `createNFSeForCreditPurchase`. -/
def creditPurchaseRow (env : IssueEnv) (db : Db) (p : CreditPurchaseParams)
    (taxInfo : TaxInfo) (conversion : CurrencyConversionResult)
    (serviceDescription : String) (resp : CreateNFSeResponse) : NfseRow :=
  { id := db.rows.length
    userId := p.userId
    taxInfoId := taxInfo.id
    fiscalNacionalId := none
    fiscalNacionalReference := resp.reference
    stripeSubscriptionId := none
    stripeInvoiceId := none
    stripePaymentIntentId := some p.stripePaymentIntentId
    stripeChargeId := optTruthy p.stripeChargeId
    transactionType := "credit_purchase"
    nfseNumber := optTruthy resp.nfseNumber
    status := resp.status
    serviceDescription := serviceDescription
    productName := some (Nat.repr p.creditAmount ++ " Credits")
    valueBrl := conversion.amountBrl
    valueUsd := if p.currency = "USD" then some p.amount else none
    originalAmount := some p.amount
    originalCurrency := some p.currency
    currencyCode := none
    exchangeRate := some conversion.exchangeRate
    issRate := 2 / 100
    issValue := 0
    customerName := taxInfo.fullName
    customerEmail := p.userEmail
    customerCountry := taxInfo.country
    customerDocument := orTruthy taxInfo.cpfCnpj taxInfo.nif
    pdfUrl := optTruthy resp.pdfUrl
    xmlUrl := optTruthy resp.xmlUrl
    errorMessage := none
    errorDetails := none
    issuedAt := none
    cancelledAt := none
    cancellationReason := none
    createdAt := env.now
    updatedAt := env.now }

/-- The `createNFSeForCreditPurchase` method (same protocol as the
subscription path, credit-purchase external reference and row). -/
def createNFSeForCreditPurchase (env : IssueEnv) (db : Db) (p : CreditPurchaseParams) :
    IssueResult :=
  match env.taxInfoFor p.userId with
  | none => ⟨.error "User tax information not found", db, 0⟩
  | some taxInfo =>
    let conversion := (convertToBRL env.conv
      ⟨p.amount, p.currency, p.stripeChargeId, some p.stripePaymentIntentId⟩).1
    let serviceDescription := buildServiceDescription
      (Nat.repr p.creditAmount ++ " Credits") p.amount p.currency
      conversion.exchangeRate conversion.source
    let externalReference := "user_" ++ Nat.repr p.userId ++ "_credits_" ++ p.stripePaymentIntentId
    match buildTomadorFromTaxInfo taxInfo p.userEmail with
    | .error e => ⟨.error e, db, 0⟩
    | .ok tomador =>
      let req : CreateNFSeRequest :=
        { tomador := tomador
          servico :=
            { valorServicos := conversion.amountBrl
              itemListaServico := env.config.itemListaServico
              codigoTributacaoMunicipio := env.config.codigoTributacaoMunicipio
              discriminacao := serviceDescription
              codigoCnae := env.config.codigoCnae }
          impostos := { issRetido := false, aliquotaIss := env.config.aliquotaIss }
          referenciaExterna := externalReference }
      match env.createNFSe req with
      | .error e => ⟨.error e, db, 1⟩
      | .ok resp =>
        let newRow := creditPurchaseRow env db p taxInfo conversion serviceDescription resp
        match env.insertOutcome with
        | .fail e => ⟨.error e, db, 1⟩
        | .okEmpty => ⟨.error "Failed to create NFS-e record", ⟨db.rows ++ [newRow]⟩, 1⟩
        | .okRow => ⟨.ok newRow.id, ⟨db.rows ++ [newRow]⟩, 1⟩

/-- The validation of `POST /tax-info` in `routes/fiscal/index.ts`:
`some` is the 400-rejection message, `none` lets the profile be
persisted. -/
def validateTaxInfo (d : TaxInfo) : Option String :=
  if d.isBrazilian then
    if ¬ strTruthy d.cpfCnpj ∨ ¬ strTruthy d.address ∨ ¬ strTruthy d.cityCode then
      some "Brazilian customers must provide CPF/CNPJ and complete address"
    else none
  else
    if d.fullName = "" then some "International customers must provide full name"
    else none

/-! ## C3 — issuance is all-or-nothing -/

/-- C3: for both issuance entry points, a missing TaxProfile or a
rejecting external `CreateInvoice` call makes the call throw with the
table unchanged — no invoice row is written — and conversely the table
changes only when the external call has succeeded, so a row is inserted
only after a successful `CreateInvoice`.  (Currency conversion cannot
throw: its embedding is total, matching the source where every
conversion-path failure is caught and turned into a fallthrough.) -/
theorem issuance_all_or_nothing (env : IssueEnv) (db : Db)
    (p : SubscriptionParams) (q : CreditPurchaseParams) :
    (env.taxInfoFor p.userId = none →
      (∃ e, (createNFSeForSubscription env db p).outcome = .error e) ∧
      (createNFSeForSubscription env db p).db = db) ∧
    ((∀ req, ∃ e, env.createNFSe req = .error e) →
      (∃ e, (createNFSeForSubscription env db p).outcome = .error e) ∧
      (createNFSeForSubscription env db p).db = db) ∧
    ((createNFSeForSubscription env db p).db ≠ db →
      ∃ req resp, env.createNFSe req = .ok resp) ∧
    (env.taxInfoFor q.userId = none →
      (∃ e, (createNFSeForCreditPurchase env db q).outcome = .error e) ∧
      (createNFSeForCreditPurchase env db q).db = db) ∧
    ((∀ req, ∃ e, env.createNFSe req = .error e) →
      (∃ e, (createNFSeForCreditPurchase env db q).outcome = .error e) ∧
      (createNFSeForCreditPurchase env db q).db = db) ∧
    ((createNFSeForCreditPurchase env db q).db ≠ db →
      ∃ req resp, env.createNFSe req = .ok resp) := by
  refine ⟨?_, ?_, ?_, ?_, ?_, ?_⟩
  · intro h
    unfold createNFSeForSubscription
    rw [h]
    exact ⟨⟨_, rfl⟩, rfl⟩
  · intro hall
    dsimp only [createNFSeForSubscription]
    split
    · exact ⟨⟨_, rfl⟩, rfl⟩
    · split
      · exact ⟨⟨_, rfl⟩, rfl⟩
      · split
        · exact ⟨⟨_, rfl⟩, rfl⟩
        · next resp heq =>
          obtain ⟨e2, he2⟩ := hall _
          rw [he2] at heq
          cases heq
  · intro hne
    by_contra hno
    push_neg at hno
    apply hne
    dsimp only [createNFSeForSubscription]
    split
    · rfl
    · split
      · rfl
      · split
        · rfl
        · next resp heq => exact absurd heq (hno _ resp)
  · intro h
    unfold createNFSeForCreditPurchase
    rw [h]
    exact ⟨⟨_, rfl⟩, rfl⟩
  · intro hall
    dsimp only [createNFSeForCreditPurchase]
    split
    · exact ⟨⟨_, rfl⟩, rfl⟩
    · split
      · exact ⟨⟨_, rfl⟩, rfl⟩
      · split
        · exact ⟨⟨_, rfl⟩, rfl⟩
        · next resp heq =>
          obtain ⟨e2, he2⟩ := hall _
          rw [he2] at heq
          cases heq
  · intro hne
    by_contra hno
    push_neg at hno
    apply hne
    dsimp only [createNFSeForCreditPurchase]
    split
    · rfl
    · split
      · rfl
      · split
        · rfl
        · next resp heq => exact absurd heq (hno _ resp)

/-- Company configuration used by the concrete issuance witnesses. -/
def sampleConfig : FiscalNacionalConfig :=
  { itemListaServico := "0107"
    codigoTributacaoMunicipio := "620910000"
    codigoCnae := some "6209100"
    aliquotaIss := some (2 / 100) }

/-- Issuance environment with no tax profile on record for any user. -/
def issueEnvNoProfile : IssueEnv :=
  { conv := sampleConvEnv
    taxInfoFor := fun _ => none
    createNFSe := fun _ => .ok { reference := "FN-1", status := "processing" }
    insertOutcome := .okRow
    config := sampleConfig
    now := (9 : Nat) }

/-- Subscription payment parameters used by the witnesses. -/
def sampleSubParams : SubscriptionParams :=
  { userId := 7
    stripeSubscriptionId := "sub_9"
    stripeInvoiceId := "in_9"
    amount := 10
    currency := "USD"
    planName := "Pro"
    userEmail := "alice@example.com" }

/-- Credit purchase parameters used by the witnesses. -/
def sampleCreditParams : CreditPurchaseParams :=
  { userId := 7
    stripePaymentIntentId := "pi_9"
    amount := 10
    currency := "USD"
    creditAmount := 500
    userEmail := "alice@example.com" }

/-- Witness for C3: with no tax profile on record, both issuance calls
throw and leave the table unchanged. -/
theorem issuance_all_or_nothing_witness :
    ((∃ e, (createNFSeForSubscription issueEnvNoProfile sampleDb sampleSubParams).outcome
        = .error e) ∧
      (createNFSeForSubscription issueEnvNoProfile sampleDb sampleSubParams).db = sampleDb) ∧
    ((∃ e, (createNFSeForCreditPurchase issueEnvNoProfile sampleDb sampleCreditParams).outcome
        = .error e) ∧
      (createNFSeForCreditPurchase issueEnvNoProfile sampleDb sampleCreditParams).db = sampleDb) :=
  ⟨(issuance_all_or_nothing issueEnvNoProfile sampleDb sampleSubParams sampleCreditParams).1
      rfl,
   (issuance_all_or_nothing issueEnvNoProfile sampleDb sampleSubParams
      sampleCreditParams).2.2.2.1 rfl⟩

/-! ## C6 — domestic profile missing the tax document -/

/-- A persisted domestic profile with a complete address and legal name
but no CPF/CNPJ. -/
def brazilianNoCpfProfile : TaxInfo :=
  { id := 3
    userId := 7
    country := "BR"
    isBrazilian := true
    cpfCnpj := none
    nif := none
    nifExemptionCode := none
    fullName := "Alice"
    address := some "Rua A"
    number := some "10"
    complement := none
    neighborhood := some "Centro"
    city := some "São Paulo"
    cityCode := some "3550308"
    state := some "SP"
    postalCode := some "01000-000"
    inscricaoMunicipal := none }

/-- Issuance environment whose persisted profile for user 7 is the
domestic profile without a CPF/CNPJ. -/
def issueEnvNoCpf : IssueEnv :=
  { conv := sampleConvEnv
    taxInfoFor := fun u => if u = 7 then some brazilianNoCpfProfile else none
    createNFSe := fun _ => .ok { reference := "FN-1", status := "processing" }
    insertOutcome := .okRow
    config := sampleConfig
    now := (9 : Nat) }

/-- C6 (counterexample): the claim says issuance with a domestic profile
missing `cpfCnpj` is refused before any external call — zero calls on
the tax API client.  On this concrete run (profile with a legal name and
full address but `cpfCnpj = null`) the service invokes the Fiscal
Nacional client once: `_buildTomadorFromTaxInfo` copies the null
document through `taxInfo.cpfCnpj!` without re-validating. -/
theorem createNFSe_called_despite_missing_cpf :
    (createNFSeForSubscription issueEnvNoCpf sampleDb sampleSubParams).fiscalCalls = 1 := by
  with_unfolding_all rfl

/-- C6 (amended): issuance itself never re-validates the profile — for
every environment whose persisted profile is domestic with no CPF/CNPJ
but a truthy legal name and a present postal code, the external tax API
is invoked exactly once (with the null document copied into the payload);
the refusal of such profiles lives one boundary earlier, in the
`POST /tax-info` validation, which rejects any domestic payload missing
`cpfCnpj` with the 400 message before it is ever persisted. -/
theorem missing_cpf_not_refused_at_issuance (env : IssueEnv) (db : Db)
    (p : SubscriptionParams) (taxInfo : TaxInfo) (pc : String)
    (ht : env.taxInfoFor p.userId = some taxInfo)
    (hbr : taxInfo.isBrazilian = true)
    (hcpf : taxInfo.cpfCnpj = none)
    (hname : taxInfo.fullName ≠ "")
    (hpc : taxInfo.postalCode = some pc) :
    (createNFSeForSubscription env db p).fiscalCalls = 1 ∧
    (∀ d : TaxInfo, d.isBrazilian = true → d.cpfCnpj = none →
      validateTaxInfo d =
        some "Brazilian customers must provide CPF/CNPJ and complete address") := by
  constructor
  · have htom : buildTomadorFromTaxInfo taxInfo p.userEmail = .ok
        { cpfCnpj := taxInfo.cpfCnpj
          nomeRazaoSocial := taxInfo.fullName
          email := p.userEmail
          endereco := some
            { logradouro := taxInfo.address
              numero := taxInfo.number
              complemento := optTruthy taxInfo.complement
              bairro := taxInfo.neighborhood
              codigoMunicipio := taxInfo.cityCode
              uf := taxInfo.state
              cep := digitsOnly pc } } := by
      unfold buildTomadorFromTaxInfo
      rw [hbr, hpc]
      simp [hname]
    dsimp only [createNFSeForSubscription]
    simp only [ht]
    simp only [htom]
    split
    · rfl
    · split <;> rfl
  · intro d hdbr hdcpf
    unfold validateTaxInfo
    rw [hdbr, hdcpf]
    simp [strTruthy, optTruthy]

/-- Witness for the amended C6 at the concrete no-CPF environment. -/
theorem missing_cpf_not_refused_witness :
    (createNFSeForSubscription issueEnvNoCpf sampleDb sampleSubParams).fiscalCalls = 1 ∧
    (∀ d : TaxInfo, d.isBrazilian = true → d.cpfCnpj = none →
      validateTaxInfo d =
        some "Brazilian customers must provide CPF/CNPJ and complete address") :=
  missing_cpf_not_refused_at_issuance issueEnvNoCpf sampleDb sampleSubParams
    brazilianNoCpfProfile "01000-000" (by with_unfolding_all rfl) rfl rfl
    (by with_unfolding_all decide) rfl
